import Mathlib

/-!
Shallow embedding of the trtc-asr-sdk-nodejs core: error codes
(`src/errors.ts`), the query-string / signature builder
(`src/signature.ts`), the credential holder (`src/credential.ts`),
the UserSig wrapper (`src/usersig.ts`) and the `SpeechRecognizer`
session state machine (`src/speech-recognizer.ts`), together with
theorems settling the specification claims.
-/

namespace TrtcAsr

/-! ## Error codes (src/errors.ts) -/

def INVALID_PARAM : Nat := 1001
def CONNECT_FAILED : Nat := 1002
def WRITE_FAILED : Nat := 1003
def READ_FAILED : Nat := 1004
def AUTH_FAILED : Nat := 1005
def TIMEOUT : Nat := 1006
def SERVER_ERROR : Nat := 1007
def ALREADY_STARTED : Nat := 1008
def NOT_STARTED : Nat := 1009
def ALREADY_STOPPED : Nat := 1010

/-- `ASRError` from src/errors.ts: a typed failure value carrying a
machine-readable numeric code and a message. -/
structure ASRError where
  code : Nat
  message : String
  deriving DecidableEq, Repr

/-! ## Signature / query-string builder (src/signature.ts) -/

/-- `SignatureParamsOptions` from src/signature.ts: the constructor
options record; optional fields are `Option`-valued (absent = `none`). -/
structure SignatureParamsOptions where
  appId : Nat
  engineModelType : String
  voiceId : String
  voiceFormat : Option Int := none
  needVad : Option Int := none
  convertNumMode : Option Int := none
  hotwordId : Option String := none
  customizationId : Option String := none
  filterDirty : Option Int := none
  filterModal : Option Int := none
  filterPunc : Option Int := none
  wordInfo : Option Int := none
  vadSilenceTime : Option Int := none
  maxSpeakTime : Option Int := none
  deriving Repr

/-- `SignatureParams` from src/signature.ts: URL query parameters for the
ASR WebSocket request. -/
structure SignatureParams where
  appId : Nat
  engineModelType : String
  voiceId : String
  timestamp : Nat
  expired : Nat
  nonce : Nat
  voiceFormat : Int
  needVad : Int
  convertNumMode : Int
  hotwordId : String
  customizationId : String
  filterDirty : Int
  filterModal : Int
  filterPunc : Int
  wordInfo : Int
  vadSilenceTime : Int
  maxSpeakTime : Int
  deriving DecidableEq, Repr

/-- The `SignatureParams` constructor (src/signature.ts lines 47-68).
`Date.now()/1000` and the random nonce are passed in explicitly;
`opts.x ?? default` becomes `Option.getD`. -/
def mkSignatureParams (opts : SignatureParamsOptions) (now : Nat) (nonce : Nat) :
    SignatureParams where
  appId := opts.appId
  engineModelType := opts.engineModelType
  voiceId := opts.voiceId
  timestamp := now
  expired := now + 86400
  nonce := nonce
  voiceFormat := opts.voiceFormat.getD 1
  needVad := opts.needVad.getD 1
  convertNumMode := opts.convertNumMode.getD 1
  hotwordId := opts.hotwordId.getD ""
  customizationId := opts.customizationId.getD ""
  filterDirty := opts.filterDirty.getD 0
  filterModal := opts.filterModal.getD 0
  filterPunc := opts.filterPunc.getD 0
  wordInfo := opts.wordInfo.getD 0
  vadSilenceTime := opts.vadSilenceTime.getD 0
  maxSpeakTime := opts.maxSpeakTime.getD 0

/-- A conditional key/value entry: models the JS statement
`if (cond) m[k] = v` used when building the parameter record. -/
def optEntry (c : Bool) (k v : String) : List (String × String) :=
  if c then [(k, v)] else []

/-- `SignatureParams.toMap` (src/signature.ts lines 82-105), as an
association list in JS insertion order.  A JS `if (x)` test on a number
is `x ≠ 0`, on a string it is `x ≠ ""`. -/
def toMap (p : SignatureParams) : List (String × String) :=
  [("secretid", toString p.appId),
   ("timestamp", toString p.timestamp),
   ("expired", toString p.expired),
   ("nonce", toString p.nonce),
   ("engine_model_type", p.engineModelType),
   ("voice_id", p.voiceId),
   ("voice_format", toString p.voiceFormat),
   ("needvad", toString p.needVad)]
  ++ optEntry (p.hotwordId ≠ "") "hotword_id" p.hotwordId
  ++ optEntry (p.customizationId ≠ "") "customization_id" p.customizationId
  ++ optEntry (p.filterDirty ≠ 0) "filter_dirty" (toString p.filterDirty)
  ++ optEntry (p.filterModal ≠ 0) "filter_modal" (toString p.filterModal)
  ++ optEntry (p.filterPunc ≠ 0) "filter_punc" (toString p.filterPunc)
  ++ optEntry (p.convertNumMode ≠ 0) "convert_num_mode" (toString p.convertNumMode)
  ++ optEntry (p.wordInfo ≠ 0) "word_info" (toString p.wordInfo)
  ++ optEntry (p.vadSilenceTime ≠ 0) "vad_silence_time" (toString p.vadSilenceTime)
  ++ optEntry (p.maxSpeakTime ≠ 0) "max_speak_time" (toString p.maxSpeakTime)

/-- The parameter record used by `buildQueryStringWithSignature`
(src/signature.ts lines 76-80): `toMap` plus `params["signature"] = userSig`
(a fresh key, hence appended at the end of the record in JS key order). -/
def toMapWithSignature (p : SignatureParams) (userSig : String) :
    List (String × String) :=
  toMap p ++ [("signature", userSig)]

/-- JS record lookup `params[k]` on the association list. -/
def getV (params : List (String × String)) (k : String) : String :=
  match params.find? (fun q => q.1 = k) with
  | some q => q.2
  | none => ""

/-- One character of `encodeURIComponent`: the unreserved set is
`A-Z a-z 0-9 - _ . ! ~ * ' ( )` (given here by code point). -/
def isUnreservedChar (c : Char) : Bool :=
  let n := c.toNat
  decide ((65 ≤ n ∧ n ≤ 90) ∨ (97 ≤ n ∧ n ≤ 122) ∨ (48 ≤ n ∧ n ≤ 57) ∨
    n = 45 ∨ n = 95 ∨ n = 46 ∨ n = 33 ∨ n = 126 ∨ n = 42 ∨ n = 39 ∨
    n = 40 ∨ n = 41)

/-- Upper-case hexadecimal digit, as produced by `encodeURIComponent`. -/
def hexDigitChar (n : Nat) : Char :=
  if n < 10 then Char.ofNat (48 + n) else Char.ofNat (55 + n)

/-- UTF-8 byte sequence of a scalar value (what JS percent-encodes). -/
def utf8Bytes (c : Char) : List Nat :=
  let n := c.toNat
  if n < 128 then [n]
  else if n < 2048 then [192 + n / 64, 128 + n % 64]
  else if n < 65536 then [224 + n / 4096, 128 + (n / 64) % 64, 128 + n % 64]
  else [240 + n / 262144, 128 + (n / 4096) % 64, 128 + (n / 64) % 64,
        128 + n % 64]

/-- `%XX` escape of one byte. -/
def percentByte (b : Nat) : String :=
  "%" ++ String.singleton (hexDigitChar (b / 16))
      ++ String.singleton (hexDigitChar (b % 16))

/-- JS `encodeURIComponent`: unreserved characters pass through, every
other character is replaced by the `%XX` escapes of its UTF-8 bytes. -/
def encodeURIComponent (s : String) : String :=
  String.join (s.toList.map fun c =>
    if isUnreservedChar c then String.singleton c
    else String.join ((utf8Bytes c).map percentByte))

/-- Lexicographic comparison of character sequences by code point: the
default comparator of JS `Array.prototype.sort` (which compares code
units; on the ASCII keys sorted here the two coincide). -/
def charListLe : List Char → List Char → Bool
  | [], _ => true
  | _ :: _, [] => false
  | a :: as, b :: bs =>
    if a = b then charListLe as bs else decide (a.toNat < b.toNat)

/-- The string comparison underlying `Object.keys(params).sort()`. -/
def stringLe (a b : String) : Bool :=
  charListLe a.data b.data

/-- `Object.keys(params).sort()`: the keys in ascending lexicographic
order.  Keys are pairwise distinct here, so any correct sort produces
this list; we model it with insertion sort. -/
def sortKeys (keys : List String) : List String :=
  keys.insertionSort (fun a b => stringLe a b = true)

/-- The sorted key/encoded-value pairs underlying `encodeParams`
(src/signature.ts lines 108-113): sort the keys, then pair each key with
the percent-encoded value looked up in the record. -/
def encodedPairs (params : List (String × String)) : List (String × String) :=
  (sortKeys (params.map Prod.fst)).map
    (fun k => (k, encodeURIComponent (getV params k)))

/-- `encodeParams` (src/signature.ts lines 108-113): render the sorted
pairs as `k=v` joined with `&`. -/
def encodeParams (params : List (String × String)) : String :=
  String.intercalate "&" ((encodedPairs params).map fun q => q.1 ++ "=" ++ q.2)

/-- `SignatureParams.buildQueryString` (src/signature.ts lines 71-73). -/
def buildQueryString (p : SignatureParams) : String :=
  encodeParams (toMap p)

/-- `SignatureParams.buildQueryStringWithSignature`
(src/signature.ts lines 76-80). -/
def buildQueryStringWithSignature (p : SignatureParams) (userSig : String) :
    String :=
  encodeParams (toMapWithSignature p userSig)

/-! ## Credential (src/credential.ts) and UserSig (src/usersig.ts) -/

/-- `Credential` from src/credential.ts: `appId`, `sdkAppId` and
`secretKey` are `readonly`; `userSig` is mutable and initialized to `""`
by the constructor. -/
structure Credential where
  appId : Nat
  sdkAppId : Nat
  secretKey : String
  userSig : String
  deriving DecidableEq, Repr

/-- The `Credential` constructor (src/credential.ts lines 22-27). -/
def mkCredential (appId sdkAppId : Nat) (secretKey : String) : Credential :=
  { appId := appId, sdkAppId := sdkAppId, secretKey := secretKey, userSig := "" }

/-- The signing primitive `TLSSigAPIv2.Api(sdkAppId, key).genSig(userId, expire)`
is external; a model takes it as a parameter. -/
def SigApi : Type := Nat → String → String → Int → String

def DEFAULT_EXPIRE : Int := 86400 * 180

/-- `genUserSig` from src/usersig.ts: clamp a non-positive expire to
`DEFAULT_EXPIRE`, then call the external signing primitive. -/
def genUserSig (api : SigApi) (sdkAppId : Nat) (key : String) (userId : String)
    (expire : Int) : String :=
  api sdkAppId key userId (if expire ≤ 0 then DEFAULT_EXPIRE else expire)

/-! ## SpeechRecognizer data model (src/speech-recognizer.ts) -/

/-- `WordInfo` from src/speech-recognizer.ts. -/
structure WordInfo where
  word : String
  start_time : Nat
  end_time : Nat
  stable_flag : Nat
  deriving DecidableEq, Repr

/-- `RecognitionResult` from src/speech-recognizer.ts; `slice_type` is
`Option`-valued because the runtime JSON may omit it (the dispatch code
reads it through optional chaining). -/
structure RecognitionResult where
  slice_type : Option Nat
  index : Nat
  start_time : Nat
  end_time : Nat
  voice_text_str : String
  word_size : Nat
  word_list : List WordInfo
  deriving DecidableEq, Repr

/-- `SpeechRecognitionResponse` from src/speech-recognizer.ts; `result`
is `Option`-valued for the same reason. -/
structure SpeechRecognitionResponse where
  code : Nat
  message : String
  voice_id : String
  message_id : String
  final : Nat
  result : Option RecognitionResult
  deriving DecidableEq, Repr

/-- `resp.result?.slice_type`: `none` when either `result` or
`slice_type` is absent. -/
def respSliceType (resp : SpeechRecognitionResponse) : Option Nat :=
  resp.result.bind RecognitionResult.slice_type

/-- The session states (enum `State` in src/speech-recognizer.ts). -/
inductive State where
  | idle
  | starting
  | running
  | stopping
  | stopped
  deriving DecidableEq, Repr

/-- The numeric value of each state (`IDLE = 0` … `STOPPED = 4`). -/
def State.toNat : State → Nat
  | .idle => 0
  | .starting => 1
  | .running => 2
  | .stopping => 3
  | .stopped => 4

/-- `this.state < State.STOPPING` in the close handler. -/
def State.ltStopping (s : State) : Bool :=
  s.toNat < State.stopping.toNat

/-- One invocation of a `SpeechRecognitionListener` callback. -/
inductive Callback where
  | onRecognitionStart (resp : SpeechRecognitionResponse)
  | onSentenceBegin (resp : SpeechRecognitionResponse)
  | onRecognitionResultChange (resp : SpeechRecognitionResponse)
  | onSentenceEnd (resp : SpeechRecognitionResponse)
  | onRecognitionComplete (resp : SpeechRecognitionResponse)
  | onFail (resp : Option SpeechRecognitionResponse) (err : ASRError)
  deriving DecidableEq, Repr

/-- The mutable fields of a `SpeechRecognizer`:
* `ws`            — whether `this.ws` is non-null;
* `transportOpen` — whether the underlying transport can still deliver
  inbound frames (false once closed by either side);
* `donePromise` / `doneResolve` — whether `this.donePromise` /
  `this.doneResolve` are non-null;
* `doneReleases`  — how many times the resolve function has actually
  been invoked (observer for the idempotence claims). -/
structure Recognizer where
  credential : Credential
  engineModelType : String
  voiceFormat : Int := 1
  needVad : Int := 1
  convertNumMode : Int := 1
  hotwordId : String := ""
  customizationId : String := ""
  filterDirty : Int := 0
  filterModal : Int := 0
  filterPunc : Int := 0
  wordInfo : Int := 0
  vadSilenceTime : Int := 0
  maxSpeakTime : Int := 0
  voiceId : String := ""
  writeTimeout : Nat := 5000
  state : State := .idle
  ws : Bool := false
  transportOpen : Bool := false
  donePromise : Bool := false
  doneResolve : Bool := false
  doneReleases : Nat := 0
  deriving DecidableEq, Repr

/-- The `SpeechRecognizer` constructor (field initializers plus the three
constructor arguments). -/
def mkRecognizer (credential : Credential) (engineModelType : String) :
    Recognizer :=
  { credential := credential, engineModelType := engineModelType }

/-- `this.close()` (src/speech-recognizer.ts lines 467-476): close the
socket and null the handle; the transport delivers nothing afterwards. -/
def closeWs (r : Recognizer) : Recognizer :=
  { r with ws := false, transportOpen := false }

/-- `if (this.doneResolve) { this.doneResolve(); this.doneResolve = null; }` —
the guarded release of the completion signal. -/
def releaseDone (r : Recognizer) : Recognizer :=
  if r.doneResolve then
    { r with doneResolve := false, doneReleases := r.doneReleases + 1 }
  else r

/-- `dispatchEvent` (src/speech-recognizer.ts lines 449-465): the switch
on `resp.result?.slice_type`. -/
def dispatchEvent (resp : SpeechRecognitionResponse) : List Callback :=
  match respSliceType resp with
  | some 0 => [.onSentenceBegin resp]
  | some 1 => [.onRecognitionResultChange resp]
  | some 2 => [.onSentenceEnd resp]
  | _ => if resp.final = 1 then [] else [.onRecognitionStart resp]

/-- `handleMessage` (src/speech-recognizer.ts lines 407-447) on a
successfully parsed response: the non-zero-code branch fails the
listener, closes the socket and releases the completion signal; the
zero-code branch dispatches the classified event and, on a terminal
response, fires the completion callback and releases the signal. -/
def handleMessage (r : Recognizer) (resp : SpeechRecognitionResponse) :
    Recognizer × List Callback :=
  if resp.code ≠ 0 then
    (releaseDone (closeWs r), [.onFail (some resp) ⟨resp.code, resp.message⟩])
  else
    let cbs := dispatchEvent resp
    if resp.final = 1 then
      (releaseDone r, cbs ++ [.onRecognitionComplete resp])
    else
      (r, cbs)

/-- `handleMessage` on a payload that fails `JSON.parse`
(src/speech-recognizer.ts lines 417-426). -/
def handleMalformed (r : Recognizer) (errText : String) :
    Recognizer × List Callback :=
  (r, [.onFail none ⟨READ_FAILED, "unmarshal response failed: " ++ errText⟩])

/-- The `ws.on("close")` handler (src/speech-recognizer.ts lines 390-404):
an unexpected closure (state before STOPPING) synthesizes a `ReadFailed`
failure callback; either way the completion signal is released and the
transport is gone. -/
def handleClose (r : Recognizer) : Recognizer × List Callback :=
  let cbs :=
    if r.state.ltStopping then
      [Callback.onFail none
        ⟨READ_FAILED, "websocket connection closed unexpectedly"⟩]
    else []
  (releaseDone { r with transportOpen := false }, cbs)

/-- An inbound stimulus on the read path. -/
inductive Inbound where
  | msg (resp : SpeechRecognitionResponse)
  | malformed (errText : String)
  | closeEvt
  deriving DecidableEq, Repr

/-- One read-path step.  Frames (`msg` / `malformed`) are delivered only
while the transport is open; the close notification runs the registered
close handler (which stays attached even after a local force-close). -/
def stepInbound (r : Recognizer) (i : Inbound) : Recognizer × List Callback :=
  match i with
  | .msg resp => if r.transportOpen then handleMessage r resp else (r, [])
  | .malformed e => if r.transportOpen then handleMalformed r e else (r, [])
  | .closeEvt => handleClose r

/-- Run a whole inbound trace, accumulating the emitted callbacks. -/
def runTrace (r : Recognizer) : List Inbound → Recognizer × List Callback
  | [] => (r, [])
  | i :: tr =>
    ((runTrace (stepInbound r i).1 tr).1,
     (stepInbound r i).2 ++ (runTrace (stepInbound r i).1 tr).2)

/-! ## write / stop (src/speech-recognizer.ts lines 217-302) -/

/-- The transport's reaction to a `ws.send`: the acknowledgement callback
fires at time `t` (with or without an error), or never fires. -/
inductive SendOutcome where
  | acked (t : Nat)
  | failed (msg : String) (t : Nat)
  | never
  deriving DecidableEq, Repr

/-- A `ws.send` raced against a `setTimeout(wt)` rejection, as in both
`write` and `stop`: the callback wins if it fires strictly before the
timer; otherwise the timer rejects at `wt`.  Returns the settled result
and the time at which the promise settles. -/
def raceSend (wt : Nat) (o : SendOutcome) (timeoutErr : ASRError)
    (failErr : String → ASRError) : Except ASRError Unit × Nat :=
  match o with
  | .acked t => if t < wt then (.ok (), t) else (.error timeoutErr, wt)
  | .failed m t => if t < wt then (.error (failErr m), t) else (.error timeoutErr, wt)
  | .never => (.error timeoutErr, wt)

/-- Outcome of one `write` call: the settled promise, the number of
frames handed to `ws.send`, and the time until settlement. -/
structure WriteResult where
  result : Except ASRError Unit
  frames : Nat
  duration : Nat

/-- `write` (src/speech-recognizer.ts lines 217-248): rejected with
`NOT_STARTED` unless the state is RUNNING and the socket is present;
otherwise exactly one binary frame is sent, raced against the write
timeout. -/
def writeModel (r : Recognizer) (sendOutcome : SendOutcome) : WriteResult :=
  if r.state ≠ State.running then
    ⟨.error ⟨NOT_STARTED, "recognizer not running"⟩, 0, 0⟩
  else if ¬ r.ws then
    ⟨.error ⟨NOT_STARTED, "connection not established"⟩, 0, 0⟩
  else
    let (res, d) := raceSend r.writeTimeout sendOutcome
      ⟨WRITE_FAILED, "write timeout"⟩
      (fun m => ⟨WRITE_FAILED, "write audio data failed: " ++ m⟩)
    ⟨res, 1, d⟩

/-- Environment of one `stop` call: how the end-signal send behaves and
when (if ever) the read side resolves the done promise. -/
structure StopEnv where
  sendEnd : SendOutcome
  doneAt : Option Nat
  deriving DecidableEq, Repr

/-- Outcome of one `stop` call. -/
structure StopResult where
  recognizer : Recognizer
  result : Except ASRError Unit
  duration : Nat

/-- `stop` (src/speech-recognizer.ts lines 251-302): guard on RUNNING;
transition to STOPPING; without a socket transition to STOPPED and throw
`NOT_STARTED`; otherwise send the end signal raced against the write
timeout (on failure force-close, STOPPED, rethrow), then await the done
promise raced against a fixed 10s timer, force-close and set STOPPED. -/
def stopModel (r : Recognizer) (env : StopEnv) : StopResult :=
  if r.state ≠ State.running then
    ⟨r, .error ⟨NOT_STARTED, "recognizer not running"⟩, 0⟩
  else
    let r1 : Recognizer := { r with state := State.stopping }
    if ¬ r1.ws then
      ⟨{ r1 with state := State.stopped },
       .error ⟨NOT_STARTED, "connection not established"⟩, 0⟩
    else
      let sent := raceSend r1.writeTimeout env.sendEnd
        ⟨WRITE_FAILED, "send end signal timeout"⟩
        (fun m => ⟨WRITE_FAILED, "send end signal failed: " ++ m⟩)
      match sent with
      | (.error e, d) =>
        ⟨{ closeWs r1 with state := State.stopped }, .error e, d⟩
      | (.ok _, d) =>
        let waited :=
          if r1.donePromise then
            match env.doneAt with
            | some t => min t 10000
            | none => 10000
          else 0
        ⟨{ closeWs r1 with state := State.stopped }, .ok (), d + waited⟩

/-! ## start / connect (src/speech-recognizer.ts lines 192-214, 306-404) -/

/-- Environment of one `start` call: the generated uuid, whether
`genUserSig` throws (and with what message), and whether the WebSocket
handshake succeeds (`openErr` is the error message otherwise). -/
structure ConnectEnv where
  uuid : String
  sigThrows : Option String
  openOk : Bool
  openErr : String
  deriving DecidableEq, Repr

/-- Outcome of `start`/`connect`: the recognizer afterwards, the settled
promise, and how many times `genUserSig` was invoked. -/
structure StartResult where
  recognizer : Recognizer
  result : Except ASRError Unit
  sigCalls : Nat

/-- `connect` (src/speech-recognizer.ts lines 306-404): generate a
voiceId if absent; derive and cache the UserSig on the credential only
if the credential's is empty (rejecting `AUTH_FAILED` and returning to
IDLE if derivation throws); create the done promise; open the socket —
RUNNING on open, back to IDLE with `CONNECT_FAILED` on handshake error. -/
def connectModel (api : SigApi) (r : Recognizer) (env : ConnectEnv) :
    StartResult :=
  let r2 := if r.voiceId = "" then { r with voiceId := env.uuid } else r
  if r2.credential.userSig = "" then
    match env.sigThrows with
    | some e =>
      ⟨{ r2 with state := State.idle },
       .error ⟨AUTH_FAILED, "generate user sig failed: " ++ e⟩, 1⟩
    | none =>
      let sig := genUserSig api r2.credential.sdkAppId r2.credential.secretKey
        r2.voiceId 86400
      let r3 : Recognizer :=
        { r2 with credential := { r2.credential with userSig := sig } }
      openSocket r3 env 1
  else
    openSocket r2 env 0
where
  /-- Lines 332-404 after the UserSig is available: build the signed
  request (pure, see `sigParamsOf`), create the done promise, open the
  socket and settle the start promise from the open/error handlers. -/
  openSocket (r : Recognizer) (env : ConnectEnv) (calls : Nat) : StartResult :=
    let r4 : Recognizer :=
      { r with donePromise := true, doneResolve := true, ws := true }
    if env.openOk then
      ⟨{ r4 with state := State.running, transportOpen := true }, .ok (), calls⟩
    else
      ⟨{ r4 with state := State.idle },
       .error ⟨CONNECT_FAILED, "websocket connect failed: " ++ env.openErr⟩,
       calls⟩

/-- The `SignatureParams` value `connect` builds (src/speech-recognizer.ts
lines 333-348), given the clock and nonce of the constructor. -/
def sigParamsOf (r : Recognizer) (now nonce : Nat) : SignatureParams :=
  mkSignatureParams
    { appId := r.credential.appId
      engineModelType := r.engineModelType
      voiceId := r.voiceId
      voiceFormat := some r.voiceFormat
      needVad := some r.needVad
      convertNumMode := some r.convertNumMode
      hotwordId := some r.hotwordId
      customizationId := some r.customizationId
      filterDirty := some r.filterDirty
      filterModal := some r.filterModal
      filterPunc := some r.filterPunc
      wordInfo := some r.wordInfo
      vadSilenceTime := some r.vadSilenceTime
      maxSpeakTime := some r.maxSpeakTime } now nonce

/-- `start` (src/speech-recognizer.ts lines 192-214): guard on IDLE with
`ALREADY_STARTED`, transition to STARTING and run `connect`. -/
def startModel (api : SigApi) (r : Recognizer) (env : ConnectEnv) :
    StartResult :=
  if r.state ≠ State.idle then
    ⟨r, .error ⟨ALREADY_STARTED, "recognizer already started"⟩, 0⟩
  else
    connectModel api { r with state := State.starting } env

/-- A sequence of session starts sharing one `Credential`: each start
runs on a fresh recognizer bound to the (current) shared credential;
returns the credential afterwards and the total number of `genUserSig`
invocations. -/
def runSessions (api : SigApi) (engine : String) :
    Credential → List ConnectEnv → Credential × Nat
  | cred, [] => (cred, 0)
  | cred, env :: rest =>
    ((runSessions api engine
        (startModel api (mkRecognizer cred engine) env).recognizer.credential
        rest).1,
     (startModel api (mkRecognizer cred engine) env).sigCalls +
       (runSessions api engine
        (startModel api (mkRecognizer cred engine) env).recognizer.credential
        rest).2)

/-! ## Observers used by the theorems -/

/-- The code of a rejected promise, `none` for a fulfilled one. -/
def errCode : Except ASRError Unit → Option Nat
  | .error e => some e.code
  | .ok _ => none

/-- Does this callback report completion (`onRecognitionComplete`)? -/
def isCompleteCb : Callback → Bool
  | .onRecognitionComplete _ => true
  | _ => false

/-- Is this one of the five event callbacks (everything except the
failure callback `onFail`)? -/
def isEventCb : Callback → Bool
  | .onFail _ _ => false
  | _ => true

/-- Number of completion callbacks in a callback log. -/
def completionCount (cbs : List Callback) : Nat :=
  cbs.countP isCompleteCb

/-- A well-formed zero-status terminal frame. -/
def isTerminalMsg : Inbound → Bool
  | .msg resp => decide (resp.code = 0 ∧ resp.final = 1)
  | _ => false

/-- A well-formed frame with a non-zero status code. -/
def isErrorMsg : Inbound → Bool
  | .msg resp => decide (resp.code ≠ 0)
  | _ => false

/-- The transport-closed notification. -/
def isCloseEvt : Inbound → Bool
  | .closeEvt => true
  | _ => false

/-! ## Concrete example values (for witnesses and counterexamples) -/

/-- Connection parameters of §8's scenario: `accountId=1300403317`,
`engineModel="16k_zh"`, `voiceId="test-voice-001"`, no optional fields,
at a fixed clock and nonce. -/
def pScenario : SignatureParams :=
  mkSignatureParams
    { appId := 1300403317, engineModelType := "16k_zh",
      voiceId := "test-voice-001" } 1700000000 42

def credEx : Credential := mkCredential 1300403317 1400188366 "test-secret"

/-- A concrete external signing primitive. -/
def apiEx : SigApi := fun _ _ _ _ => "token-abc"

def rIdle : Recognizer := mkRecognizer credEx "16k_zh"

/-- A successful start environment. -/
def envOk : ConnectEnv :=
  { uuid := "voice-1", sigThrows := none, openOk := true, openErr := "" }

/-- An environment where `genUserSig` throws. -/
def envThrow : ConnectEnv :=
  { uuid := "voice-1", sigThrows := some "boom", openOk := true, openErr := "" }

/-- The recognizer right after a successful `start`. -/
def rRun : Recognizer := (startModel apiEx rIdle envOk).recognizer

/-- A zero-status sentence-begin response. -/
def respBegin : SpeechRecognitionResponse :=
  { code := 0, message := "success", voice_id := "voice-1",
    message_id := "m1", final := 0,
    result := some { slice_type := some 0, index := 0, start_time := 0,
                     end_time := 120, voice_text_str := "你好", word_size := 0,
                     word_list := [] } }

/-- A zero-status terminal response (final sentence end). -/
def respFinal : SpeechRecognitionResponse :=
  { code := 0, message := "success", voice_id := "voice-1",
    message_id := "m2", final := 1,
    result := some { slice_type := some 2, index := 0, start_time := 0,
                     end_time := 2400, voice_text_str := "你好。", word_size := 0,
                     word_list := [] } }

/-- §8's scenario event: a well-formed response with `code = 1005`. -/
def respErr : SpeechRecognitionResponse :=
  { code := 1005, message := "server rejected the stream", voice_id := "voice-1",
    message_id := "m3", final := 0, result := none }

/-! ## Helper lemmas: sorted keys and record lookup -/

lemma sortKeys_perm (l : List String) : List.Perm (sortKeys l) l :=
  List.perm_insertionSort _ l

lemma charListLe_rfl (x : List Char) : charListLe x x = true := by
  induction x with
  | nil => rfl
  | cons a as ih => simpa [charListLe] using ih

lemma charListLe_total (x y : List Char) :
    charListLe x y = true ∨ charListLe y x = true := by
  induction x generalizing y with
  | nil => left; rfl
  | cons a as ih =>
    cases y with
    | nil => right; rfl
    | cons b bs =>
      by_cases hab : a = b
      · subst hab
        rcases ih bs with h | h
        · left; simpa [charListLe] using h
        · right; simpa [charListLe] using h
      · have hne : a.toNat ≠ b.toNat := fun he => hab (Char.ext (UInt32.ext he))
        have hba : b ≠ a := fun he => hab he.symm
        rcases Nat.lt_or_ge a.toNat b.toNat with h | h
        · left; simp [charListLe, hab, h]
        · right
          simp only [charListLe, if_neg hba, decide_eq_true_eq]
          omega

lemma charListLe_trans {x y z : List Char} (h1 : charListLe x y = true)
    (h2 : charListLe y z = true) : charListLe x z = true := by
  induction x generalizing y z with
  | nil => rfl
  | cons a as ih =>
    cases y with
    | nil => simp [charListLe] at h1
    | cons b bs =>
      cases z with
      | nil => simp [charListLe] at h2
      | cons c cs =>
        simp only [charListLe] at h1 h2 ⊢
        by_cases hab : a = b
        · subst hab
          rw [if_pos rfl] at h1
          by_cases hac : a = c
          · subst hac
            rw [if_pos rfl] at h2 ⊢
            exact ih h1 h2
          · rw [if_neg hac] at h2 ⊢
            exact h2
        · rw [if_neg hab] at h1
          by_cases hbc : b = c
          · subst hbc
            rw [if_neg hab]
            exact h1
          · rw [if_neg hbc] at h2
            simp only [decide_eq_true_eq] at h1 h2
            have hac : a ≠ c := by
              intro he
              subst he
              omega
            rw [if_neg hac]
            simp only [decide_eq_true_eq]
            omega

lemma charListLe_antisymm {x y : List Char} (h1 : charListLe x y = true)
    (h2 : charListLe y x = true) : x = y := by
  induction x generalizing y with
  | nil =>
    cases y with
    | nil => rfl
    | cons b bs => simp [charListLe] at h2
  | cons a as ih =>
    cases y with
    | nil => simp [charListLe] at h1
    | cons b bs =>
      by_cases hab : a = b
      · subst hab
        simp only [charListLe, if_pos rfl] at h1 h2
        rw [ih h1 h2]
      · have hba : b ≠ a := fun he => hab he.symm
        simp only [charListLe, if_neg hab, if_neg hba,
          decide_eq_true_eq] at h1 h2
        omega

lemma data_inj {a b : String} (h : a.data = b.data) : a = b :=
  congrArg String.mk h

lemma strLe_isTotal : IsTotal String (fun a b => stringLe a b = true) :=
  ⟨fun a b => charListLe_total a.data b.data⟩

lemma strLe_isTrans : IsTrans String (fun a b => stringLe a b = true) :=
  ⟨fun _ _ _ h1 h2 => charListLe_trans h1 h2⟩

lemma strLe_isAntisymm : IsAntisymm String (fun a b => stringLe a b = true) :=
  ⟨fun _ _ h1 h2 => data_inj (charListLe_antisymm h1 h2)⟩

lemma sortKeys_sorted (l : List String) :
    List.Sorted (fun a b => stringLe a b = true) (sortKeys l) := by
  haveI := strLe_isTotal
  haveI := strLe_isTrans
  exact List.sorted_insertionSort _ l

lemma mem_sortKeys {x : String} {l : List String} : x ∈ sortKeys l ↔ x ∈ l :=
  (sortKeys_perm l).mem_iff

@[simp] lemma map_fst_optEntry (c : Bool) (k v : String) :
    (optEntry c k v).map Prod.fst = if c then [k] else [] := by
  cases c <;> simp [optEntry]

@[simp] lemma mem_ite_single {x k : String} {c : Bool} :
    (x ∈ if c then [k] else []) ↔ c = true ∧ x = k := by
  cases c <;> simp

lemma getV_cons_of_eq {q : String × String} {t : List (String × String)}
    {k : String} (h : q.1 = k) : getV (q :: t) k = q.2 := by
  unfold getV
  rw [List.find?_cons_of_pos]
  simp [h]

lemma getV_cons_of_ne {q : String × String} {t : List (String × String)}
    {k : String} (h : q.1 ≠ k) : getV (q :: t) k = getV t k := by
  unfold getV
  rw [List.find?_cons_of_neg]
  simp [h]

lemma getV_append_of_mem {l1 l2 : List (String × String)} {k : String}
    (h : k ∈ l1.map Prod.fst) : getV (l1 ++ l2) k = getV l1 k := by
  induction l1 with
  | nil => simp at h
  | cons q t ih =>
    by_cases hq : q.1 = k
    · rw [List.cons_append, getV_cons_of_eq hq, getV_cons_of_eq hq]
    · rw [List.cons_append, getV_cons_of_ne hq, getV_cons_of_ne hq]
      apply ih
      simp only [List.map_cons, List.mem_cons] at h
      rcases h with h | h
      · exact absurd h.symm hq
      · exact h

lemma getV_append_of_not_mem {l1 l2 : List (String × String)} {k : String}
    (h : k ∉ l1.map Prod.fst) : getV (l1 ++ l2) k = getV l2 k := by
  induction l1 with
  | nil => simp
  | cons q t ih =>
    simp only [List.map_cons, List.mem_cons, not_or] at h
    rw [List.cons_append, getV_cons_of_ne (fun he => h.1 he.symm)]
    exact ih h.2

lemma filter_ne_sortKeys_append {u : List String} {x : String} (h : x ∉ u) :
    (sortKeys (u ++ [x])).filter (fun k => k ≠ x) = sortKeys u := by
  have hflt : (u ++ [x]).filter (fun k => k ≠ x) = u := by
    rw [List.filter_append]
    have h1 : u.filter (fun k => k ≠ x) = u :=
      List.filter_eq_self.mpr (fun a ha => by
        simp only [ne_eq, decide_not, Bool.not_eq_eq_eq_not, Bool.not_true,
          decide_eq_false_iff_not]
        exact fun he => h (he ▸ ha))
    have h2 : [x].filter (fun k => k ≠ x) = [] := by simp
    rw [h1, h2, List.append_nil]
  have hp : List.Perm ((sortKeys (u ++ [x])).filter (fun k => k ≠ x))
      (sortKeys u) := by
    have hp1 := (sortKeys_perm (u ++ [x])).filter (fun k => k ≠ x)
    rw [hflt] at hp1
    exact hp1.trans (sortKeys_perm u).symm
  haveI := strLe_isAntisymm
  exact List.eq_of_perm_of_sorted hp ((sortKeys_sorted _).filter _)
    (sortKeys_sorted u)

lemma map_fst_encodedPairs (params : List (String × String)) :
    (encodedPairs params).map Prod.fst = sortKeys (params.map Prod.fst) := by
  unfold encodedPairs
  rw [List.map_map]
  simp only [show (Prod.fst ∘ fun k =>
    (k, encodeURIComponent (getV params k))) = id from rfl, List.map_id]

lemma signature_not_mem_keys (p : SignatureParams) :
    "signature" ∉ (toMap p).map Prod.fst := by
  simp [toMap, optEntry]

lemma keys_toMapWithSignature (p : SignatureParams) (sig : String) :
    (toMapWithSignature p sig).map Prod.fst
      = (toMap p).map Prod.fst ++ ["signature"] := by
  simp [toMapWithSignature]

lemma encodedPairs_filter_signature (p : SignatureParams) (sig : String) :
    (encodedPairs (toMapWithSignature p sig)).filter
      (fun q => q.1 ≠ "signature") = encodedPairs (toMap p) := by
  unfold encodedPairs
  rw [keys_toMapWithSignature, List.filter_map,
    show ((fun q : String × String => decide (q.1 ≠ "signature")) ∘
      (fun k => (k, encodeURIComponent (getV (toMapWithSignature p sig) k))))
      = (fun k : String => decide (k ≠ "signature")) from rfl,
    filter_ne_sortKeys_append (signature_not_mem_keys p)]
  apply List.map_congr_left
  intro k hk
  have hk2 : k ∈ (toMap p).map Prod.fst := mem_sortKeys.mp hk
  rw [toMapWithSignature, getV_append_of_mem hk2]

lemma signature_pair_mem (p : SignatureParams) (sig : String) :
    ("signature", encodeURIComponent sig)
      ∈ encodedPairs (toMapWithSignature p sig) := by
  unfold encodedPairs
  have hmem : "signature" ∈ sortKeys ((toMapWithSignature p sig).map Prod.fst) := by
    rw [mem_sortKeys, keys_toMapWithSignature]
    simp
  have hv : getV (toMapWithSignature p sig) "signature" = sig := by
    rw [toMapWithSignature, getV_append_of_not_mem (signature_not_mem_keys p)]
    exact getV_cons_of_eq rfl
  have hin := List.mem_map_of_mem
    (fun k => (k, encodeURIComponent (getV (toMapWithSignature p sig) k))) hmem
  simpa only [hv] using hin

/-- C3: for every `SignatureParams` value and every signature string, the
signed and the unsigned query differ only by the presence of the
`signature` key — every other key appears in both with the same encoded
value, the `signature` pair appears in the signed form only — and in both
forms the keys appear in lexicographically sorted order. -/
theorem claimC3 (p : SignatureParams) (sig : String) :
    (encodedPairs (toMapWithSignature p sig)).filter
        (fun q => q.1 ≠ "signature") = encodedPairs (toMap p)
  ∧ ("signature", encodeURIComponent sig) ∈ encodedPairs (toMapWithSignature p sig)
  ∧ "signature" ∉ (encodedPairs (toMap p)).map Prod.fst
  ∧ List.Sorted (fun a b => stringLe a b = true)
      ((encodedPairs (toMap p)).map Prod.fst)
  ∧ List.Sorted (fun a b => stringLe a b = true)
      ((encodedPairs (toMapWithSignature p sig)).map Prod.fst) :=
  ⟨encodedPairs_filter_signature p sig,
   signature_pair_mem p sig,
   by
     rw [map_fst_encodedPairs]
     exact fun h => signature_not_mem_keys p (mem_sortKeys.mp h),
   by rw [map_fst_encodedPairs]; exact sortKeys_sorted _,
   by rw [map_fst_encodedPairs]; exact sortKeys_sorted _⟩

/-- C3 witness: the claim instantiated at §8's scenario parameters and a
concrete signature string. -/
theorem claimC3_witness :
    (encodedPairs (toMapWithSignature pScenario "testsig")).filter
        (fun q => q.1 ≠ "signature") = encodedPairs (toMap pScenario)
  ∧ ("signature", encodeURIComponent "testsig")
      ∈ encodedPairs (toMapWithSignature pScenario "testsig")
  ∧ "signature" ∉ (encodedPairs (toMap pScenario)).map Prod.fst
  ∧ List.Sorted (fun a b => stringLe a b = true)
      ((encodedPairs (toMap pScenario)).map Prod.fst)
  ∧ List.Sorted (fun a b => stringLe a b = true)
      ((encodedPairs (toMapWithSignature pScenario "testsig")).map Prod.fst) :=
  claimC3 pScenario "testsig"

/-- C4 counterexample: in the signed query built from §8's scenario
parameters, the last key is `voice_id`, not `signature` — the signature
key is sorted in with the other keys instead of being appended last. -/
theorem claimC4_counterexample :
    ((encodedPairs (toMapWithSignature pScenario "testsig")).map Prod.fst).getLast?
      = some "voice_id"
  ∧ ((encodedPairs (toMapWithSignature pScenario "testsig")).map Prod.fst).getLast?
      ≠ some "signature" := by
  constructor <;> decide

/-- C4 amended: the `signature` key is added to the record after all
other keys and then participates in the lexicographic sort like any other
key: the signed key list is the sorted arrangement of the unsigned keys
plus `signature` (so `signature` appears exactly once, in sorted
position, not necessarily last), and removing it restores exactly the
unsigned key list. -/
theorem claimC4_amended (p : SignatureParams) (sig : String) :
    (encodedPairs (toMapWithSignature p sig)).map Prod.fst
      = sortKeys ((toMap p).map Prod.fst ++ ["signature"])
  ∧ List.Sorted (fun a b => stringLe a b = true)
      ((encodedPairs (toMapWithSignature p sig)).map Prod.fst)
  ∧ ((encodedPairs (toMapWithSignature p sig)).map Prod.fst).count "signature" = 1
  ∧ ((encodedPairs (toMapWithSignature p sig)).map Prod.fst).filter
      (fun k => k ≠ "signature") = (encodedPairs (toMap p)).map Prod.fst := by
  refine ⟨?_, ?_, ?_, ?_⟩
  · rw [map_fst_encodedPairs, keys_toMapWithSignature]
  · rw [map_fst_encodedPairs]; exact sortKeys_sorted _
  · rw [map_fst_encodedPairs, keys_toMapWithSignature,
      (sortKeys_perm _).count_eq, List.count_append]
    rw [List.count_eq_zero.mpr (signature_not_mem_keys p)]
    rfl
  · rw [map_fst_encodedPairs, map_fst_encodedPairs, keys_toMapWithSignature,
      filter_ne_sortKeys_append (signature_not_mem_keys p)]

lemma mem_keys_encodedPairs {m : List (String × String)} {x : String} :
    x ∈ (encodedPairs m).map Prod.fst ↔ x ∈ m.map Prod.fst := by
  rw [map_fst_encodedPairs, mem_sortKeys]

/-- C4 witness: the amended claim instantiated at §8's scenario
parameters. -/
theorem claimC4_witness :
    (encodedPairs (toMapWithSignature pScenario "testsig")).map Prod.fst
      = sortKeys ((toMap pScenario).map Prod.fst ++ ["signature"])
  ∧ List.Sorted (fun a b => stringLe a b = true)
      ((encodedPairs (toMapWithSignature pScenario "testsig")).map Prod.fst)
  ∧ ((encodedPairs (toMapWithSignature pScenario "testsig")).map
      Prod.fst).count "signature" = 1
  ∧ ((encodedPairs (toMapWithSignature pScenario "testsig")).map
      Prod.fst).filter (fun k => k ≠ "signature")
        = (encodedPairs (toMap pScenario)).map Prod.fst :=
  claimC4_amended pScenario "testsig"

/-- C5 counterexample: §8's scenario parameters leave every optional
field at its default, and `convertNumMode`'s default is `1`; yet
`convert_num_mode` appears in the serialized query (with value `1`),
contradicting "appears iff set to a non-default value". -/
theorem claimC5_counterexample :
    pScenario.convertNumMode = 1
  ∧ (mkSignatureParams
      { appId := 1300403317, engineModelType := "16k_zh",
        voiceId := "test-voice-001" } 1700000000 42).convertNumMode
      = pScenario.convertNumMode
  ∧ "convert_num_mode" ∈ (encodedPairs (toMap pScenario)).map Prod.fst
  ∧ ("convert_num_mode", "1") ∈ encodedPairs (toMap pScenario) := by
  refine ⟨rfl, rfl, ?_, ?_⟩ <;> decide

/-- C5 amended: each optional key appears in the serialized query iff the
corresponding field is JS-truthy (non-empty for the string-valued fields,
non-zero for the numeric ones), and when present it carries exactly the
field's value.  For every listed field except `convertNumMode` the
default is falsy, so presence coincides with "set to a non-default
value"; `convertNumMode` defaults to `1` and is therefore serialized even
at its default (see the counterexample). -/
theorem claimC5_amended (p : SignatureParams) :
    ("hotword_id" ∈ (encodedPairs (toMap p)).map Prod.fst ↔ p.hotwordId ≠ "")
  ∧ ("customization_id" ∈ (encodedPairs (toMap p)).map Prod.fst ↔
      p.customizationId ≠ "")
  ∧ ("filter_dirty" ∈ (encodedPairs (toMap p)).map Prod.fst ↔ p.filterDirty ≠ 0)
  ∧ ("filter_modal" ∈ (encodedPairs (toMap p)).map Prod.fst ↔ p.filterModal ≠ 0)
  ∧ ("filter_punc" ∈ (encodedPairs (toMap p)).map Prod.fst ↔ p.filterPunc ≠ 0)
  ∧ ("convert_num_mode" ∈ (encodedPairs (toMap p)).map Prod.fst ↔
      p.convertNumMode ≠ 0)
  ∧ ("word_info" ∈ (encodedPairs (toMap p)).map Prod.fst ↔ p.wordInfo ≠ 0)
  ∧ ("vad_silence_time" ∈ (encodedPairs (toMap p)).map Prod.fst ↔
      p.vadSilenceTime ≠ 0)
  ∧ ("max_speak_time" ∈ (encodedPairs (toMap p)).map Prod.fst ↔
      p.maxSpeakTime ≠ 0)
  ∧ (p.hotwordId ≠ "" → ("hotword_id", p.hotwordId) ∈ toMap p)
  ∧ (p.customizationId ≠ "" → ("customization_id", p.customizationId) ∈ toMap p)
  ∧ (p.filterDirty ≠ 0 → ("filter_dirty", toString p.filterDirty) ∈ toMap p)
  ∧ (p.filterModal ≠ 0 → ("filter_modal", toString p.filterModal) ∈ toMap p)
  ∧ (p.filterPunc ≠ 0 → ("filter_punc", toString p.filterPunc) ∈ toMap p)
  ∧ (p.convertNumMode ≠ 0 →
      ("convert_num_mode", toString p.convertNumMode) ∈ toMap p)
  ∧ (p.wordInfo ≠ 0 → ("word_info", toString p.wordInfo) ∈ toMap p)
  ∧ (p.vadSilenceTime ≠ 0 →
      ("vad_silence_time", toString p.vadSilenceTime) ∈ toMap p)
  ∧ (p.maxSpeakTime ≠ 0 → ("max_speak_time", toString p.maxSpeakTime) ∈ toMap p)
    := by
  refine ⟨?_, ?_, ?_, ?_, ?_, ?_, ?_, ?_, ?_, ?_, ?_, ?_, ?_, ?_, ?_, ?_, ?_, ?_⟩
  all_goals first
    | (rw [mem_keys_encodedPairs]; simp [toMap, optEntry])
    | (intro h; simp [toMap, optEntry, h])

/-- C5 witness: the amended claim instantiated at §8's scenario
parameters (all optional fields at their defaults). -/
theorem claimC5_witness :
    ("hotword_id" ∈ (encodedPairs (toMap pScenario)).map Prod.fst ↔
        pScenario.hotwordId ≠ "")
  ∧ ("convert_num_mode" ∈ (encodedPairs (toMap pScenario)).map Prod.fst ↔
        pScenario.convertNumMode ≠ 0)
  ∧ (pScenario.convertNumMode ≠ 0 →
      ("convert_num_mode", toString pScenario.convertNumMode)
        ∈ toMap pScenario) :=
  ⟨(claimC5_amended pScenario).1,
   (claimC5_amended pScenario).2.2.2.2.2.1,
   (claimC5_amended pScenario).2.2.2.2.2.2.2.2.2.2.2.2.2.2.1⟩

/-! ## Helper lemmas: the read path -/

lemma completionCount_append (a b : List Callback) :
    completionCount (a ++ b) = completionCount a + completionCount b :=
  List.countP_append _ _ _

lemma completionCount_dispatchEvent (resp : SpeechRecognitionResponse) :
    completionCount (dispatchEvent resp) = 0 := by
  unfold dispatchEvent
  split
  · rfl
  · rfl
  · rfl
  · split
    · rfl
    · rfl

lemma releaseDone_fields (r : Recognizer) :
    (releaseDone r).doneResolve = false
  ∧ (releaseDone r).transportOpen = r.transportOpen
  ∧ (releaseDone r).ws = r.ws
  ∧ (releaseDone r).state = r.state
  ∧ (releaseDone r).doneReleases
      = (if r.doneResolve then r.doneReleases + 1 else r.doneReleases) := by
  unfold releaseDone
  split <;> simp_all

lemma stepInbound_doneInv {r : Recognizer} (i : Inbound)
    (h : (r.doneResolve = true ∧ r.doneReleases = 0) ∨
         (r.doneResolve = false ∧ r.doneReleases ≤ 1)) :
    ((stepInbound r i).1.doneResolve = true
        ∧ (stepInbound r i).1.doneReleases = 0) ∨
    ((stepInbound r i).1.doneResolve = false
        ∧ (stepInbound r i).1.doneReleases ≤ 1) := by
  cases i <;>
    simp only [stepInbound, handleMessage, handleMalformed, handleClose,
      releaseDone, closeWs] <;>
    split_ifs <;> simp_all

lemma runTrace_doneInv (tr : List Inbound) {r : Recognizer}
    (h : (r.doneResolve = true ∧ r.doneReleases = 0) ∨
         (r.doneResolve = false ∧ r.doneReleases ≤ 1)) :
    ((runTrace r tr).1.doneResolve = true
        ∧ (runTrace r tr).1.doneReleases = 0) ∨
    ((runTrace r tr).1.doneResolve = false
        ∧ (runTrace r tr).1.doneReleases ≤ 1) := by
  induction tr generalizing r with
  | nil => exact h
  | cons i t ih => exact ih (stepInbound_doneInv i h)

lemma runTrace_releases_le_one (tr : List Inbound) {r : Recognizer}
    (h1 : r.doneResolve = true) (h2 : r.doneReleases = 0) :
    (runTrace r tr).1.doneReleases ≤ 1 := by
  rcases runTrace_doneInv tr (Or.inl ⟨h1, h2⟩) with h | h
  · omega
  · exact h.2

lemma runTrace_append (r : Recognizer) (a b : List Inbound) :
    (runTrace r (a ++ b)).1 = (runTrace (runTrace r a).1 b).1
  ∧ (runTrace r (a ++ b)).2
      = (runTrace r a).2 ++ (runTrace (runTrace r a).1 b).2 := by
  induction a generalizing r with
  | nil => simp [runTrace]
  | cons i t ih =>
    simp [runTrace, (ih (stepInbound r i).1).1, (ih (stepInbound r i).1).2]

lemma step_quiet {r : Recognizer} {i : Inbound}
    (hopen : r.transportOpen = true)
    (ht : isTerminalMsg i = false) (he : isErrorMsg i = false)
    (hc : isCloseEvt i = false) :
    (stepInbound r i).1 = r ∧ completionCount (stepInbound r i).2 = 0 := by
  cases i with
  | msg resp =>
    simp only [isTerminalMsg, decide_eq_false_iff_not] at ht
    simp only [isErrorMsg, decide_eq_false_iff_not, not_not] at he
    have hf : resp.final ≠ 1 := fun hfin => ht ⟨he, hfin⟩
    constructor
    · simp [stepInbound, hopen, handleMessage, he, hf]
    · simp [stepInbound, hopen, handleMessage, he, hf,
        completionCount_dispatchEvent]
  | malformed e =>
    constructor
    · simp [stepInbound, hopen, handleMalformed]
    · simp only [stepInbound, hopen, if_true, handleMalformed]
      rfl
  | closeEvt => simp [isCloseEvt] at hc

lemma runTrace_quiet {t1 : List Inbound} {r : Recognizer}
    (hopen : r.transportOpen = true)
    (h : ∀ i ∈ t1, isTerminalMsg i = false ∧ isErrorMsg i = false
          ∧ isCloseEvt i = false) :
    (runTrace r t1).1 = r ∧ completionCount (runTrace r t1).2 = 0 := by
  induction t1 with
  | nil => exact ⟨rfl, rfl⟩
  | cons i t ih =>
    have hi := h i (List.mem_cons_self i t)
    have hs := step_quiet hopen hi.1 hi.2.1 hi.2.2
    have ihs := ih (fun j hj => h j (List.mem_cons_of_mem i hj))
    refine ⟨?_, ?_⟩
    · simp only [runTrace, hs.1]
      exact ihs.1
    · simp only [runTrace, completionCount_append, hs.1, hs.2, ihs.2]

lemma step_nonterminal_count {r : Recognizer} {i : Inbound}
    (h : isTerminalMsg i = false) :
    completionCount (stepInbound r i).2 = 0 := by
  cases i with
  | msg resp =>
    simp only [isTerminalMsg, decide_eq_false_iff_not] at h
    by_cases hopen : r.transportOpen
    · simp only [stepInbound, hopen, if_true, handleMessage]
      by_cases hc : resp.code ≠ 0
      · simp [hc]; rfl
      · simp only [ne_eq, not_not] at hc
        have hf : resp.final ≠ 1 := fun hfin => h ⟨hc, hfin⟩
        simp [hc, hf, completionCount_dispatchEvent]
    · simp only [stepInbound, hopen, if_false]
      rfl
  | malformed e =>
    by_cases hopen : r.transportOpen <;>
      simp only [stepInbound, hopen, if_true, if_false, handleMalformed] <;> rfl
  | closeEvt =>
    simp only [stepInbound, handleClose]
    split <;> rfl

lemma runTrace_no_terminal_count {t2 : List Inbound}
    (h : ∀ i ∈ t2, isTerminalMsg i = false) (r : Recognizer) :
    completionCount (runTrace r t2).2 = 0 := by
  induction t2 generalizing r with
  | nil => rfl
  | cons i t ih =>
    simp only [runTrace, completionCount_append]
    rw [step_nonterminal_count (h i (List.mem_cons_self i t)),
      ih (fun j hj => h j (List.mem_cons_of_mem i hj))]

lemma step_terminal {r : Recognizer} {resp : SpeechRecognitionResponse}
    (hopen : r.transportOpen = true)
    (hcode : resp.code = 0) (hfinal : resp.final = 1) :
    (stepInbound r (.msg resp)).1 = releaseDone r
  ∧ completionCount (stepInbound r (.msg resp)).2 = 1 := by
  constructor
  · simp [stepInbound, hopen, handleMessage, hcode, hfinal]
  · simp only [stepInbound, hopen, if_true, handleMessage]
    rw [if_neg (by simp [hcode]), if_pos hfinal]
    rw [completionCount_append, completionCount_dispatchEvent]
    rfl

lemma step_closed_stays {r : Recognizer} {i : Inbound}
    (h : r.transportOpen = false) :
    (stepInbound r i).1.transportOpen = false := by
  cases i with
  | msg resp => simp [stepInbound, h]
  | malformed e => simp [stepInbound, h]
  | closeEvt =>
    simp only [stepInbound, handleClose, releaseDone]
    split <;> rfl

lemma no_event_after_transport_closed {r : Recognizer}
    (h : r.transportOpen = false) (tr : List Inbound) :
    ∀ c ∈ (runTrace r tr).2, isEventCb c = false := by
  induction tr generalizing r with
  | nil => intro c hc; simp [runTrace] at hc
  | cons i t ih =>
    intro c hc
    simp only [runTrace, List.mem_append] at hc
    rcases hc with hc | hc
    · cases i with
      | msg resp => simp [stepInbound, h] at hc
      | malformed e => simp [stepInbound, h] at hc
      | closeEvt =>
        simp only [stepInbound, handleClose] at hc
        by_cases hst : r.state.ltStopping
        · simp only [hst, if_true, List.mem_singleton] at hc
          subst hc
          rfl
        · simp [hst] at hc
    · exact ih (step_closed_stays h) c hc

/-- C1: from the running state, one zero-status terminal inbound event
causes exactly one `onRecognitionComplete` invocation, no matter what
other non-terminal traffic (including an unexpected transport closure
right after it) surrounds it; and the completion signal is released at
most once over any trace whatsoever — a second release attempt is a
guarded no-op. -/
theorem claimC1 (r : Recognizer) (resp : SpeechRecognitionResponse)
    (t1 t2 : List Inbound)
    (hopen : r.transportOpen = true) (hdone : r.doneResolve = true)
    (hrel : r.doneReleases = 0)
    (hcode : resp.code = 0) (hfinal : resp.final = 1)
    (h1 : ∀ i ∈ t1, isTerminalMsg i = false ∧ isErrorMsg i = false
          ∧ isCloseEvt i = false)
    (h2 : ∀ i ∈ t2, isTerminalMsg i = false) :
    completionCount (runTrace r (t1 ++ Inbound.msg resp :: t2)).2 = 1
  ∧ (runTrace r (t1 ++ Inbound.msg resp :: t2)).1.doneReleases ≤ 1
  ∧ ∀ tr : List Inbound, (runTrace r tr).1.doneReleases ≤ 1 := by
  have happ := runTrace_append r t1 (Inbound.msg resp :: t2)
  have hq := runTrace_quiet hopen h1
  refine ⟨?_, runTrace_releases_le_one _ hdone hrel,
    fun tr => runTrace_releases_le_one tr hdone hrel⟩
  rw [happ.2, completionCount_append, hq.2, hq.1, Nat.zero_add]
  have hterm := step_terminal hopen hcode hfinal
  simp only [runTrace, completionCount_append]
  rw [hterm.2, hterm.1, runTrace_no_terminal_count h2 (releaseDone r)]

/-- C1 witness: the scenario of the claim — a sentence-begin event, then
the terminal event, then an unexpected closure in rapid succession —
fires exactly one completion callback and releases the signal at most
once; two stray closures alone also release it at most once. -/
theorem claimC1_witness :
    completionCount (runTrace rRun
        ([Inbound.msg respBegin] ++ Inbound.msg respFinal ::
          [Inbound.closeEvt])).2 = 1
  ∧ (runTrace rRun ([Inbound.msg respBegin] ++ Inbound.msg respFinal ::
      [Inbound.closeEvt])).1.doneReleases ≤ 1
  ∧ (runTrace rRun [Inbound.closeEvt, Inbound.closeEvt]).1.doneReleases ≤ 1 := by
  have h := claimC1 rRun respFinal [Inbound.msg respBegin] [Inbound.closeEvt]
    (by decide) (by decide) (by decide) (by decide) (by decide)
    (by decide) (by decide)
  exact ⟨h.1, h.2.1, h.2.2 [Inbound.closeEvt, Inbound.closeEvt]⟩

/-- C6 amended: a well-formed inbound event with a non-zero status code
invokes `onFail` with the event attached and an `ASRError` carrying the
server-reported code and message (the raw status code, not the local
`SERVER_ERROR` kind — see the counterexample), force-closes the
transport, releases the completion signal, and afterwards no event
callback (only possibly the failure callback) is ever dispatched for the
session. -/
theorem claimC6_amended (r : Recognizer) (resp : SpeechRecognitionResponse)
    (post : List Inbound)
    (hopen : r.transportOpen = true) (hcode : resp.code ≠ 0) :
    (stepInbound r (.msg resp)).2
        = [Callback.onFail (some resp) ⟨resp.code, resp.message⟩]
  ∧ (stepInbound r (.msg resp)).1.ws = false
  ∧ (stepInbound r (.msg resp)).1.transportOpen = false
  ∧ (stepInbound r (.msg resp)).1.doneResolve = false
  ∧ (r.doneResolve = true →
      (stepInbound r (.msg resp)).1.doneReleases = r.doneReleases + 1)
  ∧ ∀ c ∈ (runTrace (stepInbound r (.msg resp)).1 post).2,
      isEventCb c = false := by
  have hstep : stepInbound r (.msg resp)
      = (releaseDone (closeWs r),
         [Callback.onFail (some resp) ⟨resp.code, resp.message⟩]) := by
    simp [stepInbound, hopen, handleMessage, hcode]
  have hclosed : (stepInbound r (.msg resp)).1.transportOpen = false := by
    rw [hstep]
    simp only [releaseDone, closeWs]
    split <;> rfl
  refine ⟨by rw [hstep], ?_, hclosed, ?_, ?_, ?_⟩
  · rw [hstep]
    simp only [releaseDone, closeWs]
    split <;> rfl
  · rw [hstep]
    exact (releaseDone_fields (closeWs r)).1
  · intro hd
    rw [hstep]
    simp [releaseDone, closeWs, hd]
  · exact no_event_after_transport_closed hclosed post

/-- C6 witness: §8's `code=1005` scenario event, arriving while running,
followed by the socket-close notification: `onFail` fires with the event
attached, the transport is closed, completion is signalled, and the close
notification dispatches no event callback. -/
theorem claimC6_witness :
    ((stepInbound rRun (.msg respErr)).2
        = [Callback.onFail (some respErr) ⟨respErr.code, respErr.message⟩]
    ∧ (stepInbound rRun (.msg respErr)).1.ws = false
    ∧ (stepInbound rRun (.msg respErr)).1.transportOpen = false
    ∧ (stepInbound rRun (.msg respErr)).1.doneResolve = false
    ∧ (rRun.doneResolve = true →
        (stepInbound rRun (.msg respErr)).1.doneReleases
          = rRun.doneReleases + 1))
  ∧ ∀ c ∈ (runTrace (stepInbound rRun (.msg respErr)).1
      [Inbound.closeEvt]).2, isEventCb c = false := by
  have h := claimC6_amended rRun respErr [Inbound.closeEvt]
    (by decide) (by decide)
  exact ⟨⟨h.1, h.2.1, h.2.2.1, h.2.2.2.1, h.2.2.2.2.1⟩, h.2.2.2.2.2⟩

/-- C6 counterexample: for the `code=1005` event the error handed to
`onFail` carries code `1005` — which is the local `AUTH_FAILED` kind, not
`SERVER_ERROR` (1007): the claim's "error of the ServerError kind" fails
on the code, which forwards the raw server status code. -/
theorem claimC6_counterexample :
    (handleMessage rRun respErr).2
        = [Callback.onFail (some respErr)
            { code := 1005, message := "server rejected the stream" }]
  ∧ AUTH_FAILED = 1005
  ∧ SERVER_ERROR ≠ 1005 := by
  refine ⟨?_, rfl, ?_⟩ <;> decide

/-- C7: classification of well-formed zero-status events: slice kind 0
(SentenceBegin), 1 (Interim) and 2 (SentenceEnd) dispatch the respective
callbacks; an absent slice kind dispatches `onRecognitionStart` when the
event is not terminal and no classification callback when it is; whenever
the event is terminal, `onRecognitionComplete` additionally fires and the
completion signal is released. -/
theorem claimC7 (r : Recognizer) (resp : SpeechRecognitionResponse)
    (hcode : resp.code = 0) :
    (respSliceType resp = some 0 →
      (handleMessage r resp).2 = Callback.onSentenceBegin resp ::
        (if resp.final = 1 then [Callback.onRecognitionComplete resp] else []))
  ∧ (respSliceType resp = some 1 →
      (handleMessage r resp).2 = Callback.onRecognitionResultChange resp ::
        (if resp.final = 1 then [Callback.onRecognitionComplete resp] else []))
  ∧ (respSliceType resp = some 2 →
      (handleMessage r resp).2 = Callback.onSentenceEnd resp ::
        (if resp.final = 1 then [Callback.onRecognitionComplete resp] else []))
  ∧ (respSliceType resp = none → resp.final ≠ 1 →
      (handleMessage r resp).2 = [Callback.onRecognitionStart resp])
  ∧ (respSliceType resp = none → resp.final = 1 →
      (handleMessage r resp).2 = [Callback.onRecognitionComplete resp])
  ∧ (resp.final = 1 →
      Callback.onRecognitionComplete resp ∈ (handleMessage r resp).2
    ∧ (handleMessage r resp).1.doneResolve = false) := by
  have hm2 : (handleMessage r resp).2
      = dispatchEvent resp ++ (if resp.final = 1
          then [Callback.onRecognitionComplete resp] else []) := by
    by_cases hf : resp.final = 1 <;> simp [handleMessage, hcode, hf]
  refine ⟨?_, ?_, ?_, ?_, ?_, ?_⟩
  · intro h
    rw [hm2]
    unfold dispatchEvent
    rw [h]
    rfl
  · intro h
    rw [hm2]
    unfold dispatchEvent
    rw [h]
    rfl
  · intro h
    rw [hm2]
    unfold dispatchEvent
    rw [h]
    rfl
  · intro h hf
    rw [hm2]
    unfold dispatchEvent
    rw [h]
    simp [hf]
  · intro h hf
    rw [hm2]
    unfold dispatchEvent
    rw [h]
    simp [hf]
  · intro hf
    constructor
    · rw [hm2]
      simp [hf]
    · simp [handleMessage, hcode, hf, (releaseDone_fields r).1]

/-- C7 witness: the terminal sentence-end event of the examples
dispatches `onSentenceEnd` followed by `onRecognitionComplete` and
releases the completion signal. -/
theorem claimC7_witness :
    (respSliceType respFinal = some 2 →
      (handleMessage rRun respFinal).2 = Callback.onSentenceEnd respFinal ::
        (if respFinal.final = 1
          then [Callback.onRecognitionComplete respFinal] else []))
  ∧ (respFinal.final = 1 →
      Callback.onRecognitionComplete respFinal
          ∈ (handleMessage rRun respFinal).2
    ∧ (handleMessage rRun respFinal).1.doneResolve = false) :=
  ⟨(claimC7 rRun respFinal (by decide)).2.2.1,
   (claimC7 rRun respFinal (by decide)).2.2.2.2.2⟩

/-! ## Helper lemmas: write / stop -/

lemma raceSend_time_le (wt : Nat) (o : SendOutcome) (te : ASRError)
    (fe : String → ASRError) : (raceSend wt o te fe).2 ≤ wt := by
  cases o <;> simp only [raceSend] <;> (try split_ifs) <;> omega

lemma stop_running_stopped {r : Recognizer} (env : StopEnv)
    (h : r.state = State.running) :
    (stopModel r env).recognizer.state = State.stopped := by
  simp only [stopModel]
  rw [if_neg (by simp [h])]
  by_cases hws : r.ws
  · rw [if_neg (by simp [hws])]
    rcases hreq : raceSend ({ r with state := State.stopping } : Recognizer).writeTimeout
      env.sendEnd ⟨WRITE_FAILED, "send end signal timeout"⟩
      (fun m => ⟨WRITE_FAILED, "send end signal failed: " ++ m⟩) with ⟨res, d⟩
    cases res <;> rfl
  · rw [if_pos (by simp [hws])]

/-- C2 counterexample: `stop` called on an idle (never-started) session
rejects with `NOT_STARTED` but leaves the state Idle — not Stopped — so
"after stop resolves (successfully or with error) the state is always
Stopped" fails as stated. -/
theorem claimC2_counterexample :
    errCode (stopModel rIdle
      { sendEnd := SendOutcome.acked 100, doneAt := some 500 }).result
        = some NOT_STARTED
  ∧ (stopModel rIdle
      { sendEnd := SendOutcome.acked 100, doneAt := some 500 }).recognizer.state
        = State.idle
  ∧ State.idle ≠ State.stopped := by
  refine ⟨?_, ?_, ?_⟩ <;> decide

/-- C2 amended: `write` outside the Running state always rejects with
`NOT_STARTED` and sends no frame; `stop` invoked in Running leaves the
state Stopped on every path, after which `write` rejects with
`NOT_STARTED` and sends no frame; but `stop` invoked outside Running
rejects with `NOT_STARTED` leaving the recognizer unchanged (its state is
not forced to Stopped — see the counterexample), where a further `write`
still rejects with `NOT_STARTED`. -/
theorem claimC2_amended (r : Recognizer) (env : StopEnv) (o o2 : SendOutcome) :
    (r.state ≠ State.running →
        (writeModel r o).result
          = .error ⟨NOT_STARTED, "recognizer not running"⟩
      ∧ (writeModel r o).frames = 0
      ∧ stopModel r env
          = ⟨r, .error ⟨NOT_STARTED, "recognizer not running"⟩, 0⟩)
  ∧ (r.state = State.running →
        (stopModel r env).recognizer.state = State.stopped
      ∧ errCode (writeModel (stopModel r env).recognizer o2).result
          = some NOT_STARTED
      ∧ (writeModel (stopModel r env).recognizer o2).frames = 0) := by
  constructor
  · intro h
    refine ⟨?_, ?_, ?_⟩
    · simp [writeModel, h]
    · simp [writeModel, h]
    · simp [stopModel, h]
  · intro h
    have hs := stop_running_stopped env h
    refine ⟨hs, ?_, ?_⟩
    · simp [writeModel, hs, errCode]
    · simp [writeModel, hs]

/-- C2 witness: on the concrete running session, stop followed by write
behaves as amended; and on the idle session, write rejects without
sending. -/
theorem claimC2_witness :
    (rRun.state = State.running →
        (stopModel rRun { sendEnd := SendOutcome.acked 100, doneAt := some 500 }
          ).recognizer.state = State.stopped
      ∧ errCode (writeModel (stopModel rRun
          { sendEnd := SendOutcome.acked 100, doneAt := some 500 }).recognizer
          (SendOutcome.acked 10)).result = some NOT_STARTED
      ∧ (writeModel (stopModel rRun
          { sendEnd := SendOutcome.acked 100, doneAt := some 500 }).recognizer
          (SendOutcome.acked 10)).frames = 0)
  ∧ (rIdle.state ≠ State.running →
        (writeModel rIdle (SendOutcome.acked 10)).result
          = .error ⟨NOT_STARTED, "recognizer not running"⟩
      ∧ (writeModel rIdle (SendOutcome.acked 10)).frames = 0
      ∧ stopModel rIdle { sendEnd := SendOutcome.acked 100, doneAt := some 500 }
          = ⟨rIdle, .error ⟨NOT_STARTED, "recognizer not running"⟩, 0⟩) :=
  ⟨(claimC2_amended rRun { sendEnd := SendOutcome.acked 100, doneAt := some 500 }
      (SendOutcome.acked 10) (SendOutcome.acked 10)).2,
   (claimC2_amended rIdle { sendEnd := SendOutcome.acked 100, doneAt := some 500 }
      (SendOutcome.acked 10) (SendOutcome.acked 10)).1⟩

/-- C8: for every session in the Running state, `stop` settles within the
bounded end-signal send (at most the write timeout) plus the fixed 10s
completion-wait ceiling, whatever the transport does — it never blocks
indefinitely. -/
theorem claimC8 (r : Recognizer) (env : StopEnv)
    (h : r.state = State.running) :
    (stopModel r env).duration ≤ r.writeTimeout + 10000 := by
  simp only [stopModel]
  rw [if_neg (by simp [h])]
  by_cases hws : r.ws
  · rw [if_neg (by simp [hws])]
    rcases hreq : raceSend ({ r with state := State.stopping } : Recognizer).writeTimeout
      env.sendEnd ⟨WRITE_FAILED, "send end signal timeout"⟩
      (fun m => ⟨WRITE_FAILED, "send end signal failed: " ++ m⟩) with ⟨res, d⟩
    have hd : d ≤ r.writeTimeout := by
      have hb := raceSend_time_le
        ({ r with state := State.stopping } : Recognizer).writeTimeout
        env.sendEnd ⟨WRITE_FAILED, "send end signal timeout"⟩
        (fun m => ⟨WRITE_FAILED, "send end signal failed: " ++ m⟩)
      rw [hreq] at hb
      exact hb
    cases res with
    | error e => simpa using hd.trans (Nat.le_add_right _ _)
    | ok u =>
      show d + _ ≤ r.writeTimeout + 10000
      split_ifs
      · cases env.doneAt <;> simp <;> omega
      · omega
  · rw [if_pos (by simp [hws])]
    simp

/-- C8 witness: stopping the concrete running session in an environment
where the transport never acknowledges the end signal and completion
never arrives still settles within writeTimeout + 10000. -/
theorem claimC8_witness :
    (stopModel rRun { sendEnd := SendOutcome.never, doneAt := none }).duration
      ≤ rRun.writeTimeout + 10000 :=
  claimC8 rRun { sendEnd := SendOutcome.never, doneAt := none } (by decide)

/-! ## Helper lemmas: start / credential caching -/

lemma openSocket_fields (r : Recognizer) (env : ConnectEnv) (calls : Nat) :
    (connectModel.openSocket r env calls).recognizer.credential = r.credential
  ∧ (connectModel.openSocket r env calls).sigCalls = calls := by
  unfold connectModel.openSocket
  split <;> exact ⟨rfl, rfl⟩

lemma startModel_cached (api : SigApi) (cred : Credential) (engine : String)
    (env : ConnectEnv) (hsig : cred.userSig ≠ "") :
    (startModel api (mkRecognizer cred engine) env).recognizer.credential = cred
  ∧ (startModel api (mkRecognizer cred engine) env).sigCalls = 0 := by
  have h1 : startModel api (mkRecognizer cred engine) env
      = connectModel.openSocket
          { mkRecognizer cred engine with
              state := State.starting, voiceId := env.uuid } env 0 := by
    simp [startModel, connectModel, mkRecognizer, hsig]
  rw [h1]
  exact openSocket_fields _ env 0

lemma startModel_derives (api : SigApi) (cred : Credential) (engine : String)
    (env : ConnectEnv) (hsig : cred.userSig = "")
    (henv : env.sigThrows = none) :
    (startModel api (mkRecognizer cred engine) env).recognizer.credential
      = { cred with userSig :=
            genUserSig api cred.sdkAppId cred.secretKey env.uuid 86400 }
  ∧ (startModel api (mkRecognizer cred engine) env).sigCalls = 1 := by
  have h1 : startModel api (mkRecognizer cred engine) env
      = connectModel.openSocket
          { mkRecognizer cred engine with
              state := State.starting, voiceId := env.uuid,
              credential := ({ cred with userSig := genUserSig api cred.sdkAppId cred.secretKey env.uuid 86400 }) }
          env 1 := by
    simp [startModel, connectModel, mkRecognizer, hsig, henv]
  rw [h1]
  exact openSocket_fields _ env 1

lemma genUserSig_pos (api : SigApi) (a : Nat) (k v : String) :
    genUserSig api a k v 86400 = api a k v 86400 := by
  simp [genUserSig]

lemma runSessions_cached (api : SigApi) (engine : String) (cred : Credential)
    (envs : List ConnectEnv) (hsig : cred.userSig ≠ "") :
    runSessions api engine cred envs = (cred, 0) := by
  induction envs with
  | nil => rfl
  | cons e rest ih =>
    have hc := startModel_cached api cred engine e hsig
    simp only [runSessions, hc.1, hc.2, ih]

/-- C9: for any external signing primitive that yields non-empty tokens,
any shared credential, and any sequence of session starts that do not
throw during derivation: the token is derived at most once in total; the
secret key is never modified; a credential that already carries a token
is reused untouched with zero derivations; and from an empty token the
first session start derives and caches the token (computed from the
application id, the secret and that session's generated voice id with the
fixed 86400s window), after which it is never recomputed or
overwritten. -/
theorem claimC9 (api : SigApi) (engine : String) (cred : Credential)
    (envs : List ConnectEnv)
    (hapi : ∀ v, api cred.sdkAppId cred.secretKey v 86400 ≠ "")
    (hth : ∀ e ∈ envs, e.sigThrows = none) :
    (runSessions api engine cred envs).2 ≤ 1
  ∧ (runSessions api engine cred envs).1.secretKey = cred.secretKey
  ∧ (cred.userSig ≠ "" → runSessions api engine cred envs = (cred, 0))
  ∧ (∀ e rest, envs = e :: rest → cred.userSig = "" →
      (runSessions api engine cred envs).1.userSig
        = genUserSig api cred.sdkAppId cred.secretKey e.uuid 86400
    ∧ (runSessions api engine cred envs).2 = 1) := by
  cases envs with
  | nil =>
    refine ⟨by simp [runSessions], rfl, fun _ => rfl, ?_⟩
    intro e rest heq
    exact absurd heq (by simp)
  | cons e rest =>
    have hthe : e.sigThrows = none := hth e (List.mem_cons_self e rest)
    by_cases hsig : cred.userSig = ""
    · have hfr := startModel_derives api cred engine e hsig hthe
      have hne : ({ cred with userSig := genUserSig api cred.sdkAppId cred.secretKey e.uuid 86400 } : Credential).userSig ≠ "" := by
        rw [genUserSig_pos]
        exact hapi e.uuid
      have hrest := runSessions_cached api engine _ rest hne
      have hall : runSessions api engine cred (e :: rest)
          = ({ cred with userSig := genUserSig api cred.sdkAppId cred.secretKey e.uuid 86400 }, 1) := by
        simp only [runSessions, hfr.1, hfr.2, hrest]
      refine ⟨by simp [hall], by simp [hall], fun hs => absurd hsig hs, ?_⟩
      intro e2 rest2 heq hsig2
      have he2 : e2 = e := by
        injection heq with ha hb
        exact ha.symm
      subst he2
      exact ⟨by simp [hall], by simp [hall]⟩
    · have hcached := runSessions_cached api engine cred (e :: rest) hsig
      refine ⟨by simp [hcached], by simp [hcached], fun _ => hcached, ?_⟩
      intro e2 rest2 heq hsig2
      exact absurd hsig2 hsig

/-- C9 witness: two sessions sharing the example credential derive the
token exactly once; the first start caches it and the second reuses it;
the secret key is unchanged. -/
theorem claimC9_witness :
    (runSessions apiEx "16k_zh" credEx [envOk, envOk]).2 ≤ 1
  ∧ (runSessions apiEx "16k_zh" credEx [envOk, envOk]).1.secretKey
      = credEx.secretKey
  ∧ ((runSessions apiEx "16k_zh" credEx [envOk, envOk]).1.userSig
      = genUserSig apiEx credEx.sdkAppId credEx.secretKey envOk.uuid 86400
    ∧ (runSessions apiEx "16k_zh" credEx [envOk, envOk]).2 = 1) := by
  have h := claimC9 apiEx "16k_zh" credEx [envOk, envOk]
    (fun v => by show ("token-abc" : String) ≠ ""; decide) (by decide)
  exact ⟨h.1, h.2.1, h.2.2.2 envOk [envOk] rfl (by decide)⟩

/-! ## Helper lemmas: start rejection kinds -/

lemma start_from_idle_not_already (api : SigApi) (r : Recognizer)
    (env : ConnectEnv) (h : r.state = State.idle) :
    errCode (startModel api r env).result ≠ some ALREADY_STARTED := by
  by_cases hv : r.voiceId = "" <;>
  by_cases husig : r.credential.userSig = "" <;>
  cases henv : env.sigThrows <;>
  by_cases ho : env.openOk <;>
    simp [startModel, connectModel, connectModel.openSocket, h, hv, husig,
      henv, ho, errCode, ALREADY_STARTED, AUTH_FAILED, CONNECT_FAILED]

/-- C10: if token derivation throws while starting an idle session whose
credential has no cached token, `start` rejects with `AUTH_FAILED` (not
`CONNECT_FAILED`), the session state returns to Idle, and the session
remains usable: no subsequent `start` on it is rejected with
`ALREADY_STARTED`. -/
theorem claimC10 (api : SigApi) (r : Recognizer) (env : ConnectEnv)
    (e : String)
    (hstate : r.state = State.idle) (hsig : r.credential.userSig = "")
    (hthrows : env.sigThrows = some e) :
    (startModel api r env).result
      = .error ⟨AUTH_FAILED, "generate user sig failed: " ++ e⟩
  ∧ errCode (startModel api r env).result ≠ some CONNECT_FAILED
  ∧ (startModel api r env).recognizer.state = State.idle
  ∧ ∀ env2 : ConnectEnv,
      errCode (startModel api (startModel api r env).recognizer env2).result
        ≠ some ALREADY_STARTED := by
  have hrun : (startModel api r env).result
      = .error ⟨AUTH_FAILED, "generate user sig failed: " ++ e⟩
    ∧ (startModel api r env).recognizer.state = State.idle := by
    by_cases hv : r.voiceId = "" <;>
      simp [startModel, connectModel, hstate, hsig, hthrows, hv]
  refine ⟨hrun.1, ?_, hrun.2, ?_⟩
  · rw [hrun.1]
    simp [errCode, AUTH_FAILED, CONNECT_FAILED]
  · intro env2
    exact start_from_idle_not_already api _ env2 hrun.2

/-- C10 witness: on the concrete idle session with the example (empty)
credential, a start during which derivation throws "boom" rejects with
`AUTH_FAILED`, returns to Idle, and a following start with a good
environment is not rejected with `ALREADY_STARTED`. -/
theorem claimC10_witness :
    (startModel apiEx rIdle envThrow).result
      = .error ⟨AUTH_FAILED, "generate user sig failed: " ++ "boom"⟩
  ∧ errCode (startModel apiEx rIdle envThrow).result ≠ some CONNECT_FAILED
  ∧ (startModel apiEx rIdle envThrow).recognizer.state = State.idle
  ∧ errCode (startModel apiEx (startModel apiEx rIdle envThrow).recognizer
      envOk).result ≠ some ALREADY_STARTED := by
  have h := claimC10 apiEx rIdle envThrow "boom" (by decide) (by decide)
    (by decide)
  exact ⟨h.1, h.2.1, h.2.2.1, h.2.2.2 envOk⟩

end TrtcAsr
